import Mathlib

/-!
Shallow embedding of the schema-inference engine of the CodeGenius backend
(`app/services/odata_parser.py` and `app/services/function_parser.py`).

The embedding translates the Python source directly:

* Python strings are `String`; `str.lower()` is `pyLower`, substring
  containment (`needle in hay`) is `substrIn`, `str.capitalize()` is
  `pyCapitalizeL`, `str.split(sep)` is `splitOnChar`, `sep.join` is
  `joinWith` — all written over character lists so they reduce in the
  kernel.
* The regular expressions used by the source are all of the rigid shape
  "digit runs separated by literal characters"; they are embedded as token
  lists (`PatTok`) with an explicit prefix/anchored matcher, mirroring
  Python `re.match` (which anchors at the start only).
* JSON scalar values are the inductive `JVal` (null, bool, int, float,
  string).  Python floats are modelled as rationals; the only float
  operations the source performs are equality with 0/1 and `str()` (whose
  result never matches a time pattern, since those require a colon).
* The `try/except` blocks inside the individual classifier helpers are
  unreachable for string keys and `JVal` values (every operation performed
  is total), so each helper is embedded as the total function computed by
  its `try` branch.
-/

/-- Python `str.lower()` (ASCII, which is all the source's inputs use).
Written over the character list so that it reduces inside the kernel. -/
def pyLower (s : String) : String := (s.toList.map Char.toLower).asString

/-- Characters kept by `re.sub(r'[^a-zA-Z0-9_]', '', name)`. -/
def is_allowed_char (c : Char) : Bool := c.isAlpha || c.isDigit || c = '_'

/-- Does `needle` occur as a contiguous run of `hay`? -/
def listInfix (needle : List Char) : List Char → Bool
  | [] => needle.isPrefixOf []
  | ch :: cs => needle.isPrefixOf (ch :: cs) || listInfix needle cs

/-- Python substring containment `needle in hay`. -/
def substrIn (needle hay : String) : Bool := listInfix needle.toList hay.toList

/-- Python `str.capitalize()` on a character list: first character
upper-cased, the rest lower-cased. -/
def pyCapitalizeL : List Char → List Char
  | [] => []
  | ch :: cs => ch.toUpper :: cs.map Char.toLower

/-- Python `str.split(sep)` for a one-character separator: keeps empty
segments, and the empty string yields one empty segment. -/
def splitOnChar (sep : Char) : List Char → List (List Char)
  | [] => [[]]
  | ch :: cs =>
    if ch = sep then [] :: splitOnChar sep cs
    else
      match splitOnChar sep cs with
      | [] => [[ch]]
      | seg :: segs => (ch :: seg) :: segs

/-- Python `'sep'.join(parts)` on character lists. -/
def joinWith (sep : List Char) : List (List Char) → List Char
  | [] => []
  | [part] => part
  | part :: next :: parts => part ++ sep ++ joinWith sep (next :: parts)

/-- One token of the rigid regular expressions used by the source:
a run of exactly `n` digits, or one literal character. -/
inductive PatTok
  | d (n : Nat)
  | c (ch : Char)

/-- Consume exactly `n` leading digits. -/
def matchDigits : Nat → List Char → Option (List Char)
  | 0, cs => some cs
  | _ + 1, [] => none
  | n + 1, ch :: cs => if ch.isDigit then matchDigits n cs else none

/-- Consume one expected literal character. -/
def matchChar (ch : Char) : List Char → Option (List Char)
  | [] => none
  | c0 :: cs => if c0 = ch then some cs else none

/-- Run a token pattern, returning the unconsumed remainder on success. -/
def runPat : List PatTok → List Char → Option (List Char)
  | [], cs => some cs
  | .d n :: ps, cs => (matchDigits n cs).bind (runPat ps)
  | .c ch :: ps, cs => (matchChar ch cs).bind (runPat ps)

/-- Python `re.match(pat, s)` as a Bool, for an unanchored-end pattern. -/
def patPrefixMatch (pat : List PatTok) (s : String) : Bool :=
  (runPat pat s.toList).isSome

/-- Python `re.match(pat + '$', s)` as a Bool: the pattern must consume `s` whole. -/
def patFullMatch (pat : List PatTok) (s : String) : Bool :=
  match runPat pat s.toList with
  | some [] => true
  | _ => false

/-- A JSON scalar value from the decoded request body. -/
inductive JVal
  | null
  | b (v : Bool)
  | i (n : Int)
  | f (q : Rat)
  | s (v : String)
deriving DecidableEq

/-- Python `str(value)`.  Exact reprs matter only for strings here: the one
consumer is the time-pattern check, and the repr of `None`/`True`/`False`
and of numbers never contains the colon those patterns require. -/
def pyStr : JVal → String
  | .null => "None"
  | .b true => "True"
  | .b false => "False"
  | .i n => toString n
  | .f q => toString q
  | .s v => v

namespace OData

/-- Source `strong_boolean_indicators` of `ODataParser._is_definitely_boolean`. -/
def strong_boolean_indicators : List String :=
  ["is_", "has_", "can_", "should_", "will_", "was_", "were_",
   "allow_", "enable_", "disable_", "active", "enabled", "disabled",
   "visible", "hidden", "locked", "approved", "rejected", "published",
   "completed", "closed", "posted", "processed"]

/-- Source `strong_indicators` of `ODataParser._is_strong_boolean_indicator`
(a strictly shorter list than the one consulted by the boolean flag). -/
def strong_indicators : List String :=
  ["is_", "has_", "can_", "should_", "will_", "was_", "were_",
   "allow_", "enable_", "disable_", "active", "enabled", "disabled"]

/-- The name half of `ODataParser._is_definitely_boolean`. -/
def name_suggests_boolean (key : String) : Bool :=
  strong_boolean_indicators.any (fun ind => substrIn ind (pyLower key))

/-- The value half of `ODataParser._is_definitely_boolean`. -/
def value_is_boolean : JVal → Bool
  | .b _ => true
  | .i n => n = 0 || n = 1
  | .f q => q = 0 || q = 1
  | .s v => ["true", "false", "yes", "no", "y", "n"].contains (pyLower v)
  | .null => false

/-- Source `ODataParser._is_definitely_boolean`: name indicator AND boolean-like value. -/
def is_definitely_boolean (key : String) (value : JVal) : Bool :=
  name_suggests_boolean key && value_is_boolean value

/-- Source `ODataParser._is_boolean_field` (delegates to `_is_definitely_boolean`). -/
def is_boolean_field (key : String) (value : JVal) : Bool :=
  is_definitely_boolean key value

/-- Source `ODataParser._is_strong_boolean_indicator`. -/
def is_strong_boolean_indicator (key : String) : Bool :=
  strong_indicators.any (fun ind => substrIn ind (pyLower key))

/-- Source `ODataParser._is_time_string`: `^\d{1,2}:\d{2}:\d{2}$` or `^\d{1,2}:\d{2}$`. -/
def is_time_string (v : String) : Bool :=
  patFullMatch [.d 2, .c ':', .d 2, .c ':', .d 2] v ||
  patFullMatch [.d 1, .c ':', .d 2, .c ':', .d 2] v ||
  patFullMatch [.d 2, .c ':', .d 2] v ||
  patFullMatch [.d 1, .c ':', .d 2] v

/-- Source `date_field_indicators` of `_is_definitely_date_string`. -/
def date_field_indicators : List String :=
  ["date", "created", "modified", "start", "end", "expir"]

/-- Source `ODataParser._is_definitely_date_string`: name must suggest a date AND
the value must match one of the strict date patterns. -/
def is_definitely_date_string (key : String) (v : String) : Bool :=
  let name_suggests_date := date_field_indicators.any (fun ind => substrIn ind (pyLower key))
  if !name_suggests_date then false
  else
    patFullMatch [.d 4, .c '-', .d 2, .c '-', .d 2] v ||
    patPrefixMatch [.d 4, .c '-', .d 2, .c '-', .d 2, .c 'T', .d 2, .c ':', .d 2, .c ':', .d 2] v ||
    patPrefixMatch [.d 4, .c '-', .d 2, .c '-', .d 2, .c ' ', .d 2, .c ':', .d 2, .c ':', .d 2] v ||
    patFullMatch [.d 2, .c '/', .d 2, .c '/', .d 4] v

/-- Source `primary_indicators` of `ODataParser._is_primary_key`. -/
def primary_indicators : List String := ["no", "code", "id", "docno", "number", "key"]

/-- Source `ODataParser._is_primary_key`. -/
def is_primary_key (key : String) : Bool :=
  primary_indicators.any (fun ind => substrIn ind (pyLower key))

/-- Source `date_indicators` of `ODataParser._is_date_field`. -/
def date_indicators : List String := ["date", "time", "created", "modified", "start", "end"]

/-- The loose value patterns of `ODataParser._is_date_field` (prefix matches). -/
def loose_date_value_match (v : String) : Bool :=
  patPrefixMatch [.d 4, .c '-', .d 2, .c '-', .d 2] v ||
  patPrefixMatch [.d 2, .c '/', .d 2, .c '/', .d 4] v ||
  patPrefixMatch [.d 4, .c '-', .d 2, .c '-', .d 2, .c 'T', .d 2, .c ':', .d 2, .c ':', .d 2] v

/-- Source `ODataParser._is_date_field`. -/
def is_date_field (key : String) (value : JVal) : Bool :=
  (match value with
   | .s v => loose_date_value_match v
   | _ => false) ||
  date_indicators.any (fun ind => substrIn ind (pyLower key))

/-- Source `amount_indicators` of `ODataParser._is_amount_field` (includes qty/quantity). -/
def amount_indicators : List String :=
  ["amount", "total", "cost", "price", "value", "sum", "balance", "qty", "quantity"]

/-- Source `ODataParser._is_amount_field`. -/
def is_amount_field (key : String) : Bool :=
  amount_indicators.any (fun ind => substrIn ind (pyLower key))

/-- Source `ODataParser._is_status_field`. -/
def is_status_field (key : String) : Bool :=
  substrIn "status" (pyLower key)

/-- Source `user_indicators` of `ODataParser._is_user_related`. -/
def user_indicators : List String :=
  ["user", "createdby", "requestor", "staff", "employee", "account", "personnel"]

/-- Source `ODataParser._is_user_related`. -/
def is_user_related (key : String) : Bool :=
  user_indicators.any (fun ind => substrIn ind (pyLower key))

/-- Source `ODataParser._infer_csharp_type`. -/
def infer_csharp_type (key : String) (value : JVal) : String :=
  match value with
  | .null => "object"
  | .b _ => "bool"
  | .s v =>
    if is_time_string v then "TimeSpan"
    else if is_definitely_date_string key v then "DateTime"
    else if ["true", "false", "yes", "no"].contains (pyLower v) then "bool"
    else "string"
  | .i n =>
    if is_amount_field key then "decimal"
    else if (n = 0 || n = 1) && is_strong_boolean_indicator key then "bool"
    else "int"
  | .f q =>
    if is_amount_field key then "decimal"
    else if (q = 0 || q = 1) && is_strong_boolean_indicator key then "bool"
    else "decimal"

/-- Source `ODataParser._generate_description`: fixed priority order of categories. -/
def generate_description (key : String) (value : JVal) : String :=
  if is_primary_key key then "Primary key identifier"
  else if is_date_field key value then
    (if is_time_string (pyStr value) then "Time field" else "Date field")
  else if is_amount_field key then "Monetary amount"
  else if is_status_field key then "Document status"
  else if is_boolean_field key value then "Boolean indicator"
  else if is_user_related key then "User reference"
  else ""

/-- Source `ODataParser._normalize_property_name`: strip characters outside `[A-Za-z0-9_]`. -/
def normalize_property_name (name : String) : String :=
  (name.toList.filter is_allowed_char).asString

/-- Source `ODataParser._format_label`: underscores to spaces, each word capitalized. -/
def format_label (property_name : String) : String :=
  (joinWith [' '] ((splitOnChar '_' property_name.toList).map pyCapitalizeL)).asString

/-- One field descriptor (`prop` dictionary built by `ODataParser.parse`). -/
structure FieldProp where
  original_name : String
  csharp_name : String
  display_name : String
  type : String
  is_primary_key : Bool
  is_date : Bool
  is_amount : Bool
  is_status : Bool
  is_user_related : Bool
  is_boolean : Bool
  description : String
deriving DecidableEq

/-- The body of the per-key loop of `ODataParser.parse`. -/
def classify_field (key : String) (value : JVal) : FieldProp :=
  { original_name := key
    csharp_name := normalize_property_name key
    display_name := format_label key
    type := infer_csharp_type key value
    is_primary_key := is_primary_key key
    is_date := is_date_field key value
    is_amount := is_amount_field key
    is_status := is_status_field key
    is_user_related := is_user_related key
    is_boolean := is_boolean_field key value
    description := generate_description key value }

/-- The property-building loop of `ODataParser.parse`: one descriptor per
sample key, in input (insertion) order. -/
def parse_properties (odata : List (String × JVal)) : List FieldProp :=
  odata.map (fun kv => classify_field kv.1 kv.2)

/-- The mutable state of an `ODataParser` instance: `self.properties` plus the
three entries `_identify_document_structure` stores in `self.document_info`. -/
structure ParserState where
  properties : List FieldProp
  primary_key : Option FieldProp
  user_filter_fields : List FieldProp
  datatable_properties : List FieldProp
deriving DecidableEq

/-- The state after `__init__`, once `self.properties` has been filled by the
parse loop (`document_info` starts empty, so every lookup in it yields None). -/
def initial_state (properties : List FieldProp) : ParserState :=
  { properties := properties
    primary_key := none
    user_filter_fields := []
    datatable_properties := [] }

/-- Source `ODataParser._select_datatable_properties` with its default `max_count=8`.
Reads `self.properties` and the already-stored `document_info['primary_key']`.
The `try` body is total, so the fallback branch is unreachable. -/
def select_datatable_properties (properties : List FieldProp)
    (stored_primary_key : Option FieldProp) : List FieldProp :=
  let priority1 :=
    match stored_primary_key with
    | some pk => [pk]
    | none => []
  let date_props := properties.filter (·.is_date)
  let priority2 := priority1 ++ date_props.take 2
  let amount_props := properties.filter (·.is_amount)
  let priority3 := priority2 ++ amount_props.take 2
  let status_props := properties.filter (·.is_status)
  let priority4 := priority3 ++ status_props.take 1
  let boolean_props := properties.filter (·.is_boolean)
  let priority5 := priority4 ++ boolean_props.take 1
  let remaining_slots := 8 - priority5.length
  let priority6 :=
    if remaining_slots > 0 then
      let other_props := properties.filter
        (fun p => !(decide (p ∈ priority5)) && !p.is_primary_key)
      priority5 ++ other_props.take remaining_slots
    else priority5
  priority6.take 8

/-- The five priority-category picks of `_select_datatable_properties`
(primary key, up to 2 dates, up to 2 amounts, up to 1 status, up to 1
boolean), written with the same association as the sequential `extend`
calls of the source. -/
def sel_base (properties : List FieldProp) (stored_primary_key : Option FieldProp) :
    List FieldProp :=
  ((((match stored_primary_key with
      | some pk => [pk]
      | none => []) ++ (properties.filter (·.is_date)).take 2)
      ++ (properties.filter (·.is_amount)).take 2)
      ++ (properties.filter (·.is_status)).take 1)
      ++ (properties.filter (·.is_boolean)).take 1

/-- The fill step of `_select_datatable_properties`: fields not already
selected and not primary-key-flagged, up to the remaining slot count. -/
def sel_fill (properties : List FieldProp) (stored_primary_key : Option FieldProp) :
    List FieldProp :=
  (properties.filter
    (fun p => !(decide (p ∈ sel_base properties stored_primary_key)) && !p.is_primary_key)).take
    (8 - (sel_base properties stored_primary_key).length)

/-- Source `ODataParser._identify_document_structure`: sequentially stores the
primary key, the user-filter fields and the datatable selection in
`document_info`.  Its `try` body is total, so the except branch is
unreachable. -/
def identify_document_structure (s : ParserState) : ParserState :=
  let s1 : ParserState :=
    { s with primary_key := (s.properties.filter (fun p => p.is_primary_key)).head? }
  let s2 : ParserState :=
    { s1 with user_filter_fields := s1.properties.filter (fun p => p.is_user_related) }
  { s2 with datatable_properties := select_datatable_properties s2.properties s2.primary_key }

/-- Source `ODataParser.parse` end to end: build the descriptors, then identify the
document structure. -/
def parse_odata (odata : List (String × JVal)) : ParserState :=
  identify_document_structure (initial_state (parse_properties odata))

/-- Source `ODataParser._normalize_function_param_name`. -/
def normalize_function_param_name (name : String) : String :=
  let clean_name := name.toList.filter is_allowed_char
  (joinWith [] ((splitOnChar '_' clean_name).map pyCapitalizeL)).asString

/-- Source `ODataParser._format_function_display_name`. -/
def format_function_display_name (name : String) : String :=
  (joinWith [' '] ((splitOnChar '_' name.toList).map pyCapitalizeL)).asString

/-- Source `ODataParser._map_xml_type_to_csharp` (the comprehensive table). -/
def map_xml_type_to_csharp (xml_type : String) : String :=
  let t := pyLower xml_type
  if t = "string" then "string"
  else if t = "decimal" then "decimal"
  else if t = "int" then "int"
  else if t = "integer" then "int"
  else if t = "boolean" then "bool"
  else if t = "date" then "DateTime"
  else if t = "datetime" then "DateTime"
  else if t = "double" then "double"
  else if t = "float" then "float"
  else if t = "long" then "long"
  else if t = "short" then "short"
  else if t = "byte" then "byte"
  else "string"

/-- Source `dropdown_indicators` of `ODataParser._is_dropdown_field`. -/
def dropdown_indicators : List String :=
  ["account", "code", "type", "category", "status",
   "source", "item", "vote", "dimension", "gl", "vendor",
   "customer", "employee", "department"]

/-- Source `ODataParser._is_dropdown_field`. -/
def is_dropdown_field (param_name : String) : Bool :=
  dropdown_indicators.any (fun ind => substrIn ind (pyLower param_name))

/-- One `element` of the `complexType/sequence` walked by
`ODataParser.parse_function_parameters`: either an attribute dictionary
(each attribute possibly absent) or a bare string. -/
inductive ODEntry
  | dict (name_attr type_attr minOccurs_attr : Option String)
  | str (s : String)
deriving DecidableEq

/-- One parameter dictionary built by `ODataParser.parse_function_parameters`. -/
structure ODParam where
  name : String
  original_name : String
  csharp_name : String
  display_name : String
  type : String
  xml_type : String
  is_required : Bool
  is_dropdown : Bool
  is_date : Bool
  is_amount : Bool
deriving DecidableEq

/-- The parameter record appended for a (non-empty) name/type/minOccurs triple. -/
def od_param_of (param_name param_type min_occurs : String) : ODParam :=
  let csharp_type := map_xml_type_to_csharp param_type
  { name := param_name
    original_name := param_name
    csharp_name := normalize_function_param_name param_name
    display_name := format_function_display_name param_name
    type := csharp_type
    xml_type := param_type
    is_required := min_occurs == "1"
    is_dropdown := is_dropdown_field param_name
    is_date := csharp_type == "DateTime"
    is_amount := is_amount_field param_name }

/-- The per-element body of `ODataParser.parse_function_parameters`:
attribute defaults `@name → ''`, `@type → 'string'`, `@minOccurs → '1'`;
elements with an empty name are skipped. -/
def od_entry_param : ODEntry → Option ODParam
  | .dict name_attr type_attr minOccurs_attr =>
    let param_name := name_attr.getD ""
    let param_type := type_attr.getD "string"
    let min_occurs := minOccurs_attr.getD "1"
    if param_name = "" then none
    else some (od_param_of param_name param_type min_occurs)
  | .str s =>
    if s = "" then none else some (od_param_of s "string" "1")

/-- Source `ODataParser.parse_function_parameters` over an element list. -/
def parse_function_parameters (elements : List ODEntry) : List ODParam :=
  elements.filterMap od_entry_param

end OData

namespace FP

/-- An `<element .../>` XML node as seen by
`FunctionParser._parse_parameter_element` (attributes possibly absent). -/
structure XmlParamElement where
  name_attr : Option String
  type_attr : Option String
  minOccurs_attr : Option String
  maxOccurs_attr : Option String
deriving DecidableEq

/-- One entry of `FunctionParser.parameters`. -/
structure RawParam where
  name : String
  xml_type : String
  min_occurs : String
  max_occurs : String
  is_required : Bool
  is_array : Bool
deriving DecidableEq

/-- Source `FunctionParser._parse_parameter_element`: attribute defaults
`name → ''`, `type → 'string'`, `minOccurs → '1'`, `maxOccurs → '1'`;
an empty name yields None (the element is dropped).  The `try` body is
total, so the except branch is unreachable. -/
def parse_parameter_element (e : XmlParamElement) : Option RawParam :=
  let param_name := e.name_attr.getD ""
  let param_type := e.type_attr.getD "string"
  let min_occurs := e.minOccurs_attr.getD "1"
  let max_occurs := e.maxOccurs_attr.getD "1"
  if param_name = "" then none
  else some
    { name := param_name
      xml_type := param_type
      min_occurs := min_occurs
      max_occurs := max_occurs
      is_required := min_occurs == "1"
      is_array := max_occurs != "1" }

/-- Source `FunctionParser._normalize_parameter_name`: every character outside
`[A-Za-z0-9]` (underscores included) becomes a space, then whitespace-split
(dropping empty segments), capitalize, concatenate. -/
def normalize_parameter_name (name : String) : String :=
  let spaced := name.toList.map (fun c => if c.isAlpha || c.isDigit then c else ' ')
  (joinWith [] (((splitOnChar ' ' spaced).filter (· ≠ [])).map pyCapitalizeL)).asString

/-- Source `FunctionParser._format_display_name`. -/
def format_display_name (name : String) : String :=
  let spaced := name.toList.map (fun c => if c.isAlpha || c.isDigit then c else ' ')
  (joinWith [' '] (((splitOnChar ' ' spaced).filter (· ≠ [])).map pyCapitalizeL)).asString

/-- Source `FunctionParser._map_xml_type_to_csharp` (same table as the OData one). -/
def map_xml_type_to_csharp (xml_type : String) : String :=
  OData.map_xml_type_to_csharp xml_type

/-- Source `dropdown_indicators` of `FunctionParser._is_dropdown_field`
(three entries more than the OData list). -/
def dropdown_indicators : List String :=
  ["account", "code", "type", "category", "status",
   "source", "item", "vote", "dimension", "gl", "vendor",
   "customer", "employee", "department", "county", "subcounty",
   "requestsource"]

/-- Source `FunctionParser._is_dropdown_field`. -/
def is_dropdown_field (param_name : String) : Bool :=
  dropdown_indicators.any (fun ind => substrIn ind (pyLower param_name))

/-- Source `date_indicators` of `FunctionParser._is_date_field`. -/
def date_indicators : List String := ["date", "time", "created", "modified", "start", "end"]

/-- Source `FunctionParser._is_date_field`: declared type date/datetime OR a date
indicator in the parameter name. -/
def is_date_field (param_name xml_type : String) : Bool :=
  ["date", "datetime"].contains (pyLower xml_type) ||
  date_indicators.any (fun ind => substrIn ind (pyLower param_name))

/-- Source `amount_indicators` of `FunctionParser._is_amount_field` (no qty/quantity). -/
def amount_indicators : List String :=
  ["amount", "total", "cost", "price", "value", "sum", "balance"]

/-- Source `FunctionParser._is_amount_field`. -/
def is_amount_field (param_name : String) : Bool :=
  amount_indicators.any (fun ind => substrIn ind (pyLower param_name))

/-- Source `FunctionParser._generate_description`. -/
def generate_description (param_name xml_type : String) : String :=
  if is_date_field param_name xml_type then "Date field"
  else if is_amount_field param_name then "Amount field"
  else if is_dropdown_field param_name then "Selection field"
  else if xml_type = "boolean" then "Boolean indicator"
  else "Input field"

/-- One enhanced parameter returned by `FunctionParser.get_parameters`. -/
structure EnhancedParam where
  name : String
  original_name : String
  csharp_name : String
  display_name : String
  type : String
  xml_type : String
  is_required : Bool
  is_array : Bool
  is_dropdown : Bool
  is_date : Bool
  is_amount : Bool
  description : String
deriving DecidableEq

/-- The per-parameter body of `FunctionParser.get_parameters`. -/
def enhance (p : RawParam) : EnhancedParam :=
  { name := p.name
    original_name := p.name
    csharp_name := normalize_parameter_name p.name
    display_name := format_display_name p.name
    type := map_xml_type_to_csharp p.xml_type
    xml_type := p.xml_type
    is_required := p.is_required
    is_array := p.is_array
    is_dropdown := is_dropdown_field p.name
    is_date := is_date_field p.name p.xml_type
    is_amount := is_amount_field p.name
    description := generate_description p.name p.xml_type }

/-- Source `FunctionParser.get_parameters` over the stored raw parameter list. -/
def get_parameters (params : List RawParam) : List EnhancedParam :=
  params.map enhance

/-- Source `FunctionParser(xml).parse().get_parameters()`: the element walk of
`parse` followed by `get_parameters` (the namespace-stripping string
cleanup upstream of the sequence walk is out of scope). -/
def parse_and_get (elements : List XmlParamElement) : List EnhancedParam :=
  get_parameters (elements.filterMap parse_parameter_element)

end FP

/-! ## General lemmas about the embedded functions -/

/-- The datatable selection is the five category picks followed by the fill,
truncated to 8.  The source guards the fill behind `remaining_slots > 0`;
when no slots remain the fill list is empty, so the guard is redundant. -/
theorem select_eq (properties : List OData.FieldProp) (pk : Option OData.FieldProp) :
    OData.select_datatable_properties properties pk
      = (OData.sel_base properties pk ++ OData.sel_fill properties pk).take 8 := by
  simp only [OData.select_datatable_properties, OData.sel_base, OData.sel_fill]
  split
  · rfl
  · next hneg =>
    rw [Nat.eq_zero_of_not_pos hneg, List.take_zero, List.append_nil]

/-- The datatable entry stored by `_identify_document_structure` is the
selection over the instance's properties, seeded with the first
primary-key-flagged field. -/
theorem identify_datatable (s : OData.ParserState) :
    (OData.identify_document_structure s).datatable_properties
      = OData.select_datatable_properties s.properties
          ((s.properties.filter (fun q => q.is_primary_key)).head?) := by
  simp [OData.identify_document_structure]

/-- In a duplicate-free list, every element occurs at most once. -/
theorem count_le_one_of_nodup {α : Type} [DecidableEq α] {l : List α} (h : l.Nodup)
    (p : α) : l.count p ≤ 1 :=
  List.nodup_iff_count_le_one.mp h p

/-- A take of a filter of a duplicate-free list is duplicate-free. -/
theorem nodup_filter_take {α : Type} [DecidableEq α] {l : List α} (h : l.Nodup)
    (f : α → Bool) (n : Nat) : ((l.filter f).take n).Nodup :=
  List.Nodup.sublist (List.take_sublist n (l.filter f)) (h.filter f)

/-- Each of the five priority categories contributes at most one copy of any
given field, provided the input descriptor list is duplicate-free. -/
theorem count_sel_base_le (properties : List OData.FieldProp)
    (pk : Option OData.FieldProp) (h : properties.Nodup) (p : OData.FieldProp) :
    (OData.sel_base properties pk).count p ≤ 5 := by
  have hpk : (match pk with
      | some q => [q]
      | none => ([] : List OData.FieldProp)).count p ≤ 1 := by
    cases pk
    · simp
    · exact le_trans (List.count_le_length p _) (by simp)
  have h1 := count_le_one_of_nodup (nodup_filter_take h (·.is_date) 2) p
  have h2 := count_le_one_of_nodup (nodup_filter_take h (·.is_amount) 2) p
  have h3 := count_le_one_of_nodup (nodup_filter_take h (·.is_status) 1) p
  have h4 := count_le_one_of_nodup (nodup_filter_take h (·.is_boolean) 1) p
  simp only [OData.sel_base, List.count_append]
  omega

/-- A field can enter the datatable selection at most five times: once per
priority category; the fill step re-adds nothing already selected. -/
theorem select_count_le (properties : List OData.FieldProp)
    (pk : Option OData.FieldProp) (h : properties.Nodup) (p : OData.FieldProp) :
    (OData.select_datatable_properties properties pk).count p ≤ 5 := by
  rw [select_eq]
  refine le_trans ((List.take_sublist 8 _).count_le p) ?_
  rw [List.count_append]
  by_cases hmem : p ∈ OData.sel_fill properties pk
  · have hcond := (List.mem_filter.mp
      (List.mem_of_mem_take (by simpa [OData.sel_fill] using hmem))).2
    have hnot : p ∉ OData.sel_base properties pk := by
      have hdec := (Bool.and_eq_true_iff.mp hcond).1
      simpa using hdec
    have hz : (OData.sel_base properties pk).count p = 0 := List.count_eq_zero.mpr hnot
    have hfill : (OData.sel_fill properties pk).count p ≤ 1 :=
      count_le_one_of_nodup (nodup_filter_take h _ _) p
    omega
  · have hz : (OData.sel_fill properties pk).count p = 0 := List.count_eq_zero.mpr hmem
    have hb := count_sel_base_le properties pk h p
    omega

/-- The datatable selection never exceeds its cap of 8. -/
theorem select_length_le_eight (properties : List OData.FieldProp)
    (pk : Option OData.FieldProp) :
    (OData.select_datatable_properties properties pk).length ≤ 8 := by
  rw [select_eq]
  exact List.length_take_le 8 _

/-! ## Claims -/

/-- Claim C1, counterexample: a value of `2` on a field named `is_active`
does NOT flag `is_boolean`; the source combines the name match and the value
match with AND, not OR. -/
theorem is_boolean_name_match_alone_refuted :
    OData.is_boolean_field "is_active" (JVal.i 2) = false := by decide

/-- Claim C1 (amended): for every field, `is_boolean` is true iff the name
contains a boolean indicator AND the value is boolean-like (a bool, a number
equal to 0 or 1, or one of true/false/yes/no/y/n case-insensitively). -/
theorem is_boolean_conjunction (key : String) (value : JVal) :
    OData.is_boolean_field key value = true ↔
      OData.name_suggests_boolean key = true ∧ OData.value_is_boolean value = true := by
  simp [OData.is_boolean_field, OData.is_definitely_boolean, Bool.and_eq_true]

/-- Claim C3, counterexample: the sample `{"StartNo": "x"}` yields a field
that is both the primary key and a date, and it appears TWICE in
`datatable_fields` (the date pass does not skip the already-selected
primary key). -/
theorem datatable_duplicate_startno :
    ¬ ((OData.parse_odata [("StartNo", JVal.s "x")]).datatable_properties).Nodup := by
  decide

/-- Claim C3 (amended): duplicates are skipped only in the final fill step;
a field is appended once per priority category it matches (primary key, up
to 2 dates, up to 2 amounts, 1 status, 1 boolean), so for a duplicate-free
descriptor list a field appears at most 5 times in `datatable_fields` — not
at most once — and in particular a primary key that is also a date is
selected twice. -/
theorem datatable_once_per_category (properties : List OData.FieldProp)
    (h : properties.Nodup) (p : OData.FieldProp) :
    ((OData.identify_document_structure
        (OData.initial_state properties)).datatable_properties).count p ≤ 5 := by
  rw [identify_datatable]
  simp only [OData.initial_state]
  exact select_count_le _ _ h p

/-- Claim C3, witness: the amended bound applied to the concrete
`{"StartNo": "x"}` sample (whose descriptor list is duplicate-free). -/
theorem datatable_once_per_category_witness :
    (OData.parse_properties [("StartNo", JVal.s "x")]).Nodup ∧
    ((OData.identify_document_structure
        (OData.initial_state
          (OData.parse_properties [("StartNo", JVal.s "x")]))).datatable_properties).count
      (OData.classify_field "StartNo" (JVal.s "x")) ≤ 5 :=
  ⟨by decide,
   datatable_once_per_category (OData.parse_properties [("StartNo", JVal.s "x")])
     (by decide) (OData.classify_field "StartNo" (JVal.s "x"))⟩

/-- Claim C4, counterexample: for the single-field sample
`{"StartNo": "x"}`, `datatable_fields` has 2 entries — more than the number
of distinct fields in the input. -/
theorem datatable_exceeds_distinct_fields :
    ¬ ((OData.parse_odata [("StartNo", JVal.s "x")]).datatable_properties.length ≤
        (OData.parse_properties [("StartNo", JVal.s "x")]).length) := by
  decide

/-- Claim C4 (amended): `datatable_fields` always has length at most 8, but
its length can exceed the number of distinct input fields when a field
matches several priority categories. -/
theorem datatable_length_le_eight (s : OData.ParserState) :
    ((OData.identify_document_structure s).datatable_properties).length ≤ 8 := by
  rw [identify_datatable]
  exact select_length_le_eight _ _

/-- Claim C5, counterexample: an element with no `minOccurs` attribute is
required — both parameter pipelines default the attribute to the string
`'1'`, so absence yields `is_required = true`, not false. -/
theorem absent_min_occurs_required :
    (FP.parse_parameter_element ⟨some "DocNo", some "string", none, none⟩).map
        (fun p => p.is_required) = some true ∧
    (OData.od_entry_param (OData.ODEntry.dict (some "DocNo") (some "string") none)).map
        (fun p => p.is_required) = some true := by
  exact ⟨rfl, rfl⟩

/-- Claim C5 (amended): `is_required` is true iff the effective `min_occurs`
string — the attribute value, defaulting to `'1'` when the attribute is
absent — equals the literal string `'1'`; the comparison is strict string
equality, so an explicit `'01'` or `'0'` is not required, but an absent
attribute is. -/
theorem is_required_strict_equality (nm : String) (t mo mx : Option String)
    (h : nm ≠ "") :
    (FP.parse_parameter_element ⟨some nm, t, mo, mx⟩).map (fun p => p.is_required)
        = some (mo.getD "1" == "1") ∧
    (OData.od_entry_param (OData.ODEntry.dict (some nm) t mo)).map (fun p => p.is_required)
        = some (mo.getD "1" == "1") := by
  constructor
  · simp [FP.parse_parameter_element, h]
  · simp [OData.od_entry_param, OData.od_param_of, h]

/-- Claim C5, witness: the amended rule at `minOccurs='01'` (not required,
despite being numerically 1) for both pipelines. -/
theorem is_required_strict_equality_witness :
    (FP.parse_parameter_element ⟨some "DocNo", some "string", some "01", some "1"⟩).map
        (fun p => p.is_required) = some false ∧
    (OData.od_entry_param (OData.ODEntry.dict (some "DocNo") (some "string") (some "01"))).map
        (fun p => p.is_required) = some false :=
  is_required_strict_equality "DocNo" (some "string") (some "01") (some "1") (by decide)

/-- Any XML type string maps to `DateTime` exactly when it lower-cases to
`date` or `datetime`. -/
theorem map_datetime_iff (xml_type : String) :
    OData.map_xml_type_to_csharp xml_type = "DateTime" ↔
      (pyLower xml_type = "date" ∨ pyLower xml_type = "datetime") := by
  simp only [OData.map_xml_type_to_csharp]
  generalize pyLower xml_type = t
  by_cases h1 : t = "string"
  · subst h1; decide
  rw [if_neg h1]
  by_cases h2 : t = "decimal"
  · subst h2; decide
  rw [if_neg h2]
  by_cases h3 : t = "int"
  · subst h3; decide
  rw [if_neg h3]
  by_cases h4 : t = "integer"
  · subst h4; decide
  rw [if_neg h4]
  by_cases h5 : t = "boolean"
  · subst h5; decide
  rw [if_neg h5]
  by_cases h6 : t = "date"
  · subst h6; decide
  rw [if_neg h6]
  by_cases h7 : t = "datetime"
  · subst h7; decide
  rw [if_neg h7]
  by_cases h8 : t = "double"
  · subst h8; decide
  rw [if_neg h8]
  by_cases h9 : t = "float"
  · subst h9; decide
  rw [if_neg h9]
  by_cases h10 : t = "long"
  · subst h10; decide
  rw [if_neg h10]
  by_cases h11 : t = "short"
  · subst h11; decide
  rw [if_neg h11]
  by_cases h12 : t = "byte"
  · subst h12; decide
  rw [if_neg h12]
  exact iff_of_false (by decide) (fun hc => hc.elim h6 h7)

/-- The date/datetime membership test of `_is_date_field` agrees with
"the declared type maps to DateTime". -/
theorem contains_date_beq (xml_type : String) :
    (["date", "datetime"].contains (pyLower xml_type))
      = (OData.map_xml_type_to_csharp xml_type == "DateTime") := by
  rw [Bool.eq_iff_iff]
  simp [map_datetime_iff xml_type]

/-- Claim C6, counterexample: in the active `FunctionParser` pipeline a
parameter named `StartDate` declared with type `string` gets
`is_date = true` even though its declared type maps to `string`, not
`DateTime` — `is_date` is not independent of the parameter name there. -/
theorem param_is_date_name_driven :
    (FP.parse_and_get [⟨some "StartDate", some "string", some "1", some "1"⟩]).map
        (fun p => (p.is_date, p.type)) = [(true, "string")] := by
  exact rfl

/-- Claim C6 (amended): in `FunctionParser.get_parameters`, `is_date` is true
iff the declared type maps to `DateTime` OR the name contains a date
indicator (date, time, created, modified, start, end); only
`ODataParser.parse_function_parameters` computes `is_date` purely from the
mapped declared type, independent of the name. -/
theorem param_is_date_semantics (p : FP.RawParam) (nm : String) (t mo : Option String)
    (h : nm ≠ "") :
    (FP.enhance p).is_date
        = ((FP.map_xml_type_to_csharp p.xml_type == "DateTime")
            || FP.date_indicators.any (fun ind => substrIn ind (pyLower p.name))) ∧
    (OData.od_entry_param (OData.ODEntry.dict (some nm) t mo)).map (fun q => q.is_date)
        = some (OData.map_xml_type_to_csharp (t.getD "string") == "DateTime") := by
  constructor
  · simp only [FP.enhance, FP.is_date_field, FP.map_xml_type_to_csharp]
    rw [contains_date_beq]
  · simp [OData.od_entry_param, OData.od_param_of, h]

/-- Claim C6, witness: the amended rule at the concrete raw parameter
`StartDate : string` (name-driven date in the FunctionParser pipeline) and
the concrete element `DueDate : datetime` (type-driven in the OData
pipeline). -/
theorem param_is_date_semantics_witness :
    (FP.enhance ⟨"StartDate", "string", "1", "1", true, false⟩).is_date
        = ((FP.map_xml_type_to_csharp "string" == "DateTime")
            || FP.date_indicators.any (fun ind => substrIn ind (pyLower "StartDate"))) ∧
    (OData.od_entry_param (OData.ODEntry.dict (some "DueDate") (some "datetime") none)).map
        (fun q => q.is_date)
        = some (OData.map_xml_type_to_csharp ((some "datetime").getD "string") == "DateTime") :=
  param_is_date_semantics ⟨"StartDate", "string", "1", "1", true, false⟩
    "DueDate" (some "datetime") none (by decide)

/-- Claim C7, counterexample: `Quantity` with value `1` infers `decimal`,
not `int` — `quantity` is in the amount-indicator list, and the amount check
precedes the integer default. -/
theorem quantity_one_not_int :
    OData.infer_csharp_type "Quantity" (JVal.i 1) = "decimal" ∧
    OData.infer_csharp_type "Quantity" (JVal.i 1) ≠ "int" := by
  exact ⟨rfl, by decide⟩

/-- Claim C7 (amended): a numeric value `1` on a field whose name has no
strong boolean indicator is never inferred as Boolean; for the concrete
name `Quantity` the inferred type is `decimal` (amount-indicator match),
not Boolean and not Integer. -/
theorem value_one_without_indicator_not_bool (key : String)
    (h : OData.is_strong_boolean_indicator key = false) :
    OData.infer_csharp_type key (JVal.i 1) ≠ "bool" ∧
    OData.infer_csharp_type "Quantity" (JVal.i 1) = "decimal" := by
  refine ⟨?_, rfl⟩
  unfold OData.infer_csharp_type
  by_cases ha : OData.is_amount_field key <;> simp [ha, h]

/-- Claim C7, witness: the amended statement at the concrete name
`Quantity`, whose strong-indicator check is false. -/
theorem value_one_without_indicator_not_bool_witness :
    OData.is_strong_boolean_indicator "Quantity" = false ∧
    (OData.infer_csharp_type "Quantity" (JVal.i 1) ≠ "bool" ∧
     OData.infer_csharp_type "Quantity" (JVal.i 1) = "decimal") :=
  ⟨by decide, value_one_without_indicator_not_bool "Quantity" (by decide)⟩

/-- Claim C8: summarization is idempotent — re-running
`_identify_document_structure` on an instance state yields the same primary
key, user-filter fields and datatable selection, because each run
recomputes all three from the unchanged `properties` list. -/
theorem summarize_idempotent (s : OData.ParserState) :
    OData.identify_document_structure (OData.identify_document_structure s)
      = OData.identify_document_structure s := by
  rfl

/-- Claim C9: the boolean role flag does not determine the inferred type:
`Posted = 1` has `is_boolean = true` (the flag consults the long indicator
list, which has `posted`) yet infers type `int` (the type inference
consults the short strong-indicator list, which lacks `posted`). -/
theorem boolean_flag_independent_of_type :
    (OData.classify_field "Posted" (JVal.i 1)).is_boolean = true ∧
    (OData.classify_field "Posted" (JVal.i 1)).type = "int" ∧
    OData.name_suggests_boolean "Posted" = true ∧
    OData.is_strong_boolean_indicator "Posted" = false := by
  decide

/-- Claim C10 (confirmed): a key made only of characters outside
`[A-Za-z0-9_]` still yields exactly one descriptor (the parse loop never
drops a key), and that descriptor's normalized name is the empty string. -/
theorem weird_key_kept (sample : List (String × JVal)) (key : String) (v : JVal)
    (h : ∀ c ∈ key.toList, is_allowed_char c = false) :
    (OData.parse_properties ((key, v) :: sample)).length = sample.length + 1 ∧
    (OData.parse_properties ((key, v) :: sample)).head?.map (fun p => p.csharp_name)
      = some "" := by
  constructor
  · simp [OData.parse_properties]
  · have hnil : List.filter is_allowed_char key.data = [] := by
      rw [List.filter_eq_nil_iff]
      intro a ha
      simp [h a ha]
    simp [OData.parse_properties, OData.classify_field, OData.normalize_property_name,
      String.toList, hnil, List.asString]

/-- Claim C10, witness: the concrete key `@#` (no allowed characters) with a
null value and an otherwise empty sample. -/
theorem weird_key_kept_witness :
    (∀ c ∈ ("@#" : String).toList, is_allowed_char c = false) ∧
    ((OData.parse_properties [("@#", JVal.null)]).length = 1 ∧
     (OData.parse_properties [("@#", JVal.null)]).head?.map (fun p => p.csharp_name)
       = some "") :=
  ⟨by decide, weird_key_kept [] "@#" JVal.null (by decide)⟩
